import Mathlib

/-!
Shallow embedding of the LED show controller ("emergent-order"): the host
render engine and serial session (showrunner), the WebSocket takeover server,
the coordinate loader, and the Pico device decoder (parser state machine,
gamma table, current limiter, test patterns).

Conventions:
* JavaScript numbers that only ever hold exact small values are modelled as
  `ℚ` (or `ℕ` for byte/counter values); the device firmware's C integers are
  `ℕ` with explicit truncation where the width matters.
* Byte streams are `List ℕ` whose elements are understood to be `< 256`
  (they come from `uint8_t` buffers / `Buffer` cells in the sources).
* The firmware's boot-time gamma table is a real-valued construction
  (`powf`); the byte-level device model is parameterised over the resulting
  table `lut : ℕ → ℕ` so that it stays executable.
-/

namespace EmergentOrder

/-! ## Device firmware constants (from the WS2812 proxy source) -/

def NUM_CHANNELS : ℕ := 8

def MAX_LEDS_PER_CHANNEL : ℕ := 200

def CURRENT_LIMIT_THRESHOLD : ℕ := 30000

def TEST_PATTERN_DEFAULT_LEDS : ℕ := 200

def NUM_TEST_PATTERNS : ℕ := 6

def TERNARY_NUM_DIGITS : ℕ := 9

def CMD_UPDATE_AND_FLUSH : ℕ := 0xFF

def CMD_UPDATE_ONLY : ℕ := 0xFE

def CMD_FLUSH : ℕ := 0xFD

def CMD_RESET : ℕ := 0xFC

def CMD_START_PATTERN : ℕ := 0xFB

def CMD_STOP_PATTERN : ℕ := 0xFA

def CMD_CLEAR_ALL : ℕ := 0xF9

/-! ## Gamma correction (`calc_gamma_table`, `gamma_correct`, `rgb_to_grb`) -/

/-- `calc_gamma_table`: `gamma_lut[0] = 0`, and for `i ≥ 1`
`gamma_lut[i] = (uint8_t)(powf(i/255, γ) * 255 + 0.5)`.  The `uint8_t`
cast truncates the (nonnegative, `≤ 255.5`) float toward zero. -/
noncomputable def gamma_lut (γ : ℝ) (i : ℕ) : ℕ :=
  if i = 0 then 0 else ⌊((i : ℝ) / 255) ^ γ * 255 + 1 / 2⌋₊

/-- The table the device computes at boot with the default `GAMMA_VALUE 2.8`. -/
noncomputable def device_lut : ℕ → ℕ := gamma_lut 2.8

/-- `rgb_to_grb`: gamma-correct each component through the (uint8-valued)
table and pack `(G << 16 | R << 8 | B) << 8`.  The packed word is kept as a
plain `ℕ`; `% 256` reflects the `uint8_t` storage of `gamma_lut`. -/
def rgb_to_grb (lut : ℕ → ℕ) (r g b : ℕ) : ℕ :=
  ((lut g % 256) * 65536 + (lut r % 256) * 256 + lut b % 256) * 256

/-! ## Current limiting (`calculate_brightness_units`, `apply_current_limiting`) -/

/-- `calculate_brightness_units`: unshift the pre-shifted GRB word and sum
`r + g + b`. -/
def calculate_brightness_units (w : ℕ) : ℕ :=
  let p := w / 256
  (p / 256 % 256) + (p / 65536 % 256) + (p % 256)

/-- One scaled pixel inside `apply_current_limiting`: each extracted
component is multiplied by the float `scale` and cast back with
`(uint8_t)`, i.e. truncated toward zero (`Nat.floor`); the word is
re-packed pre-shifted.  `scale` is modelled as an exact rational. -/
def scale_pixel (w : ℕ) (scale : ℚ) : ℕ :=
  let p := w / 256
  let g := p / 65536 % 256
  let r := p / 256 % 256
  let b := p % 256
  (⌊(g : ℚ) * scale⌋₊ * 65536 + ⌊(r : ℚ) * scale⌋₊ * 256 + ⌊(b : ℚ) * scale⌋₊) * 256

/-- Device-side per-channel state: the double buffer, the declared LED count
and the limit-event counter (the DMA bookkeeping is timing, not data, and is
not represented). -/
structure Ws2812Channel where
  active_buffer : ℕ → ℕ
  output_buffer : ℕ → ℕ
  led_count : ℕ
  current_limit_events : ℕ

/-- Total brightness of the first `led_count` words of the active buffer. -/
def channel_total_brightness (ch : Ws2812Channel) : ℕ :=
  (List.range ch.led_count).foldl
    (fun acc i => acc + calculate_brightness_units (ch.active_buffer i)) 0

/-- `apply_current_limiting` (with `CURRENT_LIMIT_ENABLE`): if the channel is
empty, return; otherwise sum the brightness of the active buffer, and when it
exceeds `CURRENT_LIMIT_THRESHOLD` scale every LED of the active buffer by
`threshold / total` and count a limit event. -/
def apply_current_limiting (ch : Ws2812Channel) : Ws2812Channel :=
  if ch.led_count = 0 then ch
  else
    let total := channel_total_brightness ch
    if CURRENT_LIMIT_THRESHOLD < total then
      let scale : ℚ := (CURRENT_LIMIT_THRESHOLD : ℚ) / (total : ℚ)
      { ch with
        active_buffer := fun i =>
          if i < ch.led_count then scale_pixel (ch.active_buffer i) scale
          else ch.active_buffer i
        current_limit_events := ch.current_limit_events + 1 }
    else ch

/-! ## Device decoder state machine (`parse_uart_data` and helpers) -/

/-- `parser_state_t`. -/
inductive ParserState where
  | waitCommand
  | readChannel
  | readCountLow
  | readCountHigh
  | readRgbData
  | readFlushMask
  | readPatternId
deriving DecidableEq, Repr

/-- `parser_context_t`. -/
structure ParserContext where
  state : ParserState
  current_command : ℕ
  current_channel : ℕ
  current_led_count : ℕ
  current_led_index : ℕ
  rgb_byte_index : ℕ
  current_r : ℕ
  current_g : ℕ
  current_b : ℕ
  auto_flush : Bool

/-- `statistics_t`. -/
structure Statistics where
  commands : ℕ
  pixels : ℕ
  flushes : ℕ
  errors : ℕ

/-- `system_mode_t`. -/
inductive SystemMode where
  | normal
  | testPattern
deriving DecidableEq, Repr

/-- The device decoder's data state: parser context, the 8 channels
(modelled as a function; only indices `< NUM_CHANNELS` are ever touched),
statistics, system mode, and a flag recording a `CMD_RESET` reboot. -/
structure DeviceState where
  parserCtx : ParserContext
  channels : ℕ → Ws2812Channel
  stats : Statistics
  system_mode : SystemMode
  current_test_pattern : ℕ
  rebooted : Bool

/-- Point update of the channel array. -/
def setChannel (chans : ℕ → Ws2812Channel) (id : ℕ) (c : Ws2812Channel) :
    ℕ → Ws2812Channel :=
  fun j => if j = id then c else chans j

/-- `ws2812_channel_update`: skip empty channels, otherwise swap the double
buffer (active ↔ output, the new output feeds the DMA) and count a flush. -/
def device_channel_update (s : DeviceState) (id : ℕ) : DeviceState :=
  let ch := s.channels id
  if ch.led_count = 0 then s
  else
    { s with
      channels := setChannel s.channels id
        { ch with active_buffer := ch.output_buffer, output_buffer := ch.active_buffer }
      stats := { s.stats with flushes := s.stats.flushes + 1 } }

/-- `flush_channels`: update every channel whose mask bit is set. -/
def flush_channels (s : DeviceState) (mask : ℕ) : DeviceState :=
  (List.range NUM_CHANNELS).foldl
    (fun acc i => if mask.testBit i then device_channel_update acc i else acc) s

/-- `activate_test_pattern`: wrap the id, set every channel's `led_count` to
`TEST_PATTERN_DEFAULT_LEDS`, and enter test-pattern mode. -/
def activate_test_pattern (s : DeviceState) (pid : ℕ) : DeviceState :=
  { s with
    channels := fun j =>
      if j < NUM_CHANNELS then { s.channels j with led_count := TEST_PATTERN_DEFAULT_LEDS }
      else s.channels j
    system_mode := SystemMode.testPattern
    current_test_pattern := pid % NUM_TEST_PATTERNS }

/-- The `CMD_CLEAR_ALL` handler body: `stop_test_pattern()`, then for each
channel set `led_count := MAX_LEDS_PER_CHANNEL`, `memset` the active buffer
to zero and `ws2812_channel_update` it. -/
def clear_all (s : DeviceState) : DeviceState :=
  (List.range NUM_CHANNELS).foldl
    (fun acc ch =>
      let acc1 := { acc with
        channels := setChannel acc.channels ch
          { acc.channels ch with
            led_count := MAX_LEDS_PER_CHANNEL
            active_buffer := fun _ => 0 } }
      device_channel_update acc1 ch)
    { s with system_mode := SystemMode.normal }

/-- One byte of `parse_uart_data`'s state machine.  `byte` is a `uint8_t`
read from the RX buffer (callers feed values `< 256`).  In
`STATE_READ_COUNT_HIGH` the `|=` of the shifted high byte is addition
because the stored low byte is `< 256`. -/
def parse_byte (lut : ℕ → ℕ) (s : DeviceState) (byte : ℕ) : DeviceState :=
  match s.parserCtx.state with
  | ParserState.waitCommand =>
    let s0 := { s with
      parserCtx := { s.parserCtx with current_command := byte }
      stats := { s.stats with commands := s.stats.commands + 1 } }
    if byte = CMD_UPDATE_AND_FLUSH then
      { s0 with parserCtx := { s0.parserCtx with auto_flush := true, state := ParserState.readChannel } }
    else if byte = CMD_UPDATE_ONLY then
      { s0 with parserCtx := { s0.parserCtx with auto_flush := false, state := ParserState.readChannel } }
    else if byte = CMD_FLUSH then
      { s0 with parserCtx := { s0.parserCtx with state := ParserState.readFlushMask } }
    else if byte = CMD_RESET then
      { s0 with rebooted := true }
    else if byte = CMD_START_PATTERN then
      { s0 with parserCtx := { s0.parserCtx with state := ParserState.readPatternId } }
    else if byte = CMD_STOP_PATTERN then
      { s0 with system_mode := SystemMode.normal }
    else if byte = CMD_CLEAR_ALL then
      clear_all s0
    else s0
  | ParserState.readPatternId =>
    let s1 := activate_test_pattern s byte
    { s1 with parserCtx := { s1.parserCtx with state := ParserState.waitCommand } }
  | ParserState.readFlushMask =>
    let s1 := flush_channels s byte
    { s1 with parserCtx := { s1.parserCtx with state := ParserState.waitCommand } }
  | ParserState.readChannel =>
    if byte < NUM_CHANNELS then
      { s with parserCtx := { s.parserCtx with current_channel := byte, state := ParserState.readCountLow } }
    else
      { s with
        stats := { s.stats with errors := s.stats.errors + 1 }
        parserCtx := { s.parserCtx with state := ParserState.waitCommand } }
  | ParserState.readCountLow =>
    { s with parserCtx := { s.parserCtx with current_led_count := byte, state := ParserState.readCountHigh } }
  | ParserState.readCountHigh =>
    let cnt := s.parserCtx.current_led_count + byte * 256
    if 0 < cnt ∧ cnt ≤ MAX_LEDS_PER_CHANNEL then
      { s with
        parserCtx := { s.parserCtx with
          current_led_count := cnt
          current_led_index := 0
          rgb_byte_index := 0
          state := ParserState.readRgbData }
        channels := setChannel s.channels s.parserCtx.current_channel
          { s.channels s.parserCtx.current_channel with led_count := cnt }
        -- exit test pattern mode if active
        system_mode := SystemMode.normal }
    else
      { s with
        parserCtx := { s.parserCtx with current_led_count := cnt, state := ParserState.waitCommand }
        stats := { s.stats with errors := s.stats.errors + 1 } }
  | ParserState.readRgbData =>
    if s.parserCtx.rgb_byte_index = 0 then
      { s with parserCtx := { s.parserCtx with current_r := byte, rgb_byte_index := s.parserCtx.rgb_byte_index + 1 } }
    else if s.parserCtx.rgb_byte_index = 1 then
      { s with parserCtx := { s.parserCtx with current_g := byte, rgb_byte_index := s.parserCtx.rgb_byte_index + 1 } }
    else if s.parserCtx.rgb_byte_index = 2 then
      let chId := s.parserCtx.current_channel
      let ch := s.channels chId
      let pix := rgb_to_grb lut s.parserCtx.current_r s.parserCtx.current_g byte
      let s1 := { s with
        channels := setChannel s.channels chId
          { ch with active_buffer := fun j =>
              if j = s.parserCtx.current_led_index then pix else ch.active_buffer j }
        parserCtx := { s.parserCtx with
          current_b := byte
          current_led_index := s.parserCtx.current_led_index + 1
          rgb_byte_index := 0 }
        stats := { s.stats with pixels := s.stats.pixels + 1 } }
      if s1.parserCtx.current_led_index ≥ s1.parserCtx.current_led_count then
        let s2 := { s1 with
          channels := setChannel s1.channels chId (apply_current_limiting (s1.channels chId)) }
        let s3 := if s1.parserCtx.auto_flush then device_channel_update s2 chId else s2
        { s3 with parserCtx := { s3.parserCtx with state := ParserState.waitCommand } }
      else s1
    else s

/-- Run the parser over a byte list. -/
def run_bytes (lut : ℕ → ℕ) (s : DeviceState) (bytes : List ℕ) : DeviceState :=
  bytes.foldl (parse_byte lut) s

/-- `ws2812_channel_init`: zeroed double buffer, `led_count = 0`. -/
def initial_channel : Ws2812Channel :=
  { active_buffer := fun _ => 0
    output_buffer := fun _ => 0
    led_count := 0
    current_limit_events := 0 }

/-- Boot state of the decoder (the initialisers of `parser`, `stats`,
`system_mode` in the firmware source). -/
def initial_device : DeviceState :=
  { parserCtx :=
    { state := ParserState.waitCommand
      current_command := 0
      current_channel := 0
      current_led_count := 0
      current_led_index := 0
      rgb_byte_index := 0
      current_r := 0
      current_g := 0
      current_b := 0
      auto_flush := true }
    channels := fun _ => initial_channel
    stats := { commands := 0, pixels := 0, flushes := 0, errors := 0 }
    system_mode := SystemMode.normal
    current_test_pattern := 0
    rebooted := false }

/-! ## Host render engine (`AnimationEngine.renderFrame`) and serial framing
(`SerialConnection.sendFrameFlat` / `flush`) -/

/-- A JavaScript number as the animation may produce it: an exact finite
value, an infinity, or `NaN`. -/
inductive JsNum where
  | val : ℚ → JsNum
  | posInf
  | negInf
  | nan
deriving DecidableEq

/-- `r * 255` on JavaScript numbers (`255` is finite positive, so the sign
of an infinite operand is preserved and `NaN` propagates). -/
def jsMul255 : JsNum → JsNum
  | JsNum.val q => JsNum.val (q * 255)
  | JsNum.posInf => JsNum.posInf
  | JsNum.negInf => JsNum.negInf
  | JsNum.nan => JsNum.nan

/-- Round-half-to-even on an exact rational (the tie case of ECMAScript's
`ToUint8Clamp`). -/
def roundHalfEven (q : ℚ) : ℤ :=
  if q - ⌊q⌋ < 1 / 2 then ⌊q⌋
  else if 1 / 2 < q - ⌊q⌋ then ⌊q⌋ + 1
  else if ⌊q⌋ % 2 = 0 then ⌊q⌋ else ⌊q⌋ + 1

/-- ECMAScript `ToUint8Clamp`, the conversion applied on assignment into a
`Uint8ClampedArray`: `NaN ↦ 0`, clamp to `[0, 255]`, round half to even. -/
def toUint8Clamp : JsNum → ℕ
  | JsNum.nan => 0
  | JsNum.negInf => 0
  | JsNum.posInf => 255
  | JsNum.val q =>
    if q ≤ 0 then 0
    else if 255 ≤ q then 255
    else (roundHalfEven q).toNat

/-- An animation call `animationFunc(x, y, z, t, params, id)`: `none` models
a raised error, `some l` the returned value coerced to the array of its
components (a non-array return is modelled as `l` with `l.length < 3`,
which the engine treats identically). -/
def AnimFunc : Type :=
  ℚ × ℚ × ℚ → ℚ → ℕ → Option (List JsNum)

/-- The per-LED body of `renderFrame`: missing coordinate → stay black;
a raised error or a result that is not an array of length `≥ 3` → stay
black (the `try`/`catch` around the LED); otherwise store
`r*255, g*255, b*255` through the `Uint8ClampedArray` clamp. -/
def render_led (coords : ℕ → Option (ℚ × ℚ × ℚ)) (anim : AnimFunc) (t : ℚ)
    (id : ℕ) : ℕ × ℕ × ℕ :=
  match coords id with
  | none => (0, 0, 0)
  | some c =>
    match anim c t id with
    | none => (0, 0, 0)
    | some result =>
      if result.length < 3 then (0, 0, 0)
      else
        (toUint8Clamp (jsMul255 (result.getD 0 JsNum.nan)),
         toUint8Clamp (jsMul255 (result.getD 1 JsNum.nan)),
         toUint8Clamp (jsMul255 (result.getD 2 JsNum.nan)))

/-- Engine configuration (`config.totalLeds = ledsPerChannel * numChannels`). -/
structure EngineConfig where
  numChannels : ℕ
  ledsPerChannel : ℕ

def EngineConfig.totalLeds (cfg : EngineConfig) : ℕ :=
  cfg.ledsPerChannel * cfg.numChannels

/-- The flat frame buffer after the render loop of one tick: zero-filled,
then LED `id < totalLeds` holds its rendered bytes at `id*3 + {0,1,2}`. -/
def frame_buffer (cfg : EngineConfig) (coords : ℕ → Option (ℚ × ℚ × ℚ))
    (anim : AnimFunc) (t : ℚ) (j : ℕ) : ℕ :=
  if j / 3 < cfg.totalLeds then
    let p := render_led coords anim t (j / 3)
    if j % 3 = 0 then p.1 else if j % 3 = 1 then p.2.1 else p.2.2
  else 0

/-- `SerialConnection.sendFrameFlat`: packet
`[0xFE, channel, cnt & 0xFF, (cnt >> 8) & 0xFF]` followed by `cnt*3` bytes
copied from the flat buffer at `offset`. -/
def send_frame_flat (channel : ℕ) (flatBuffer : ℕ → ℕ) (offset ledCount : ℕ) :
    List ℕ :=
  [CMD_UPDATE_ONLY, channel, ledCount % 256, ledCount / 256 % 256] ++
    (List.range (ledCount * 3)).map fun i => flatBuffer (offset + i)

/-- `SerialConnection.flush`: packet `[0xFD, channelMask]`. -/
def flush_packet (channelMask : ℕ) : List ℕ :=
  [CMD_FLUSH, channelMask]

/-- All serial bytes written by one `renderFrame` tick: one
`sendFrameFlat(ch, frameBuffer, ch*ledsPerChannel*3, ledsPerChannel)` per
channel in ascending order, then `flush(0xFF)`. -/
def render_frame_bytes (cfg : EngineConfig) (coords : ℕ → Option (ℚ × ℚ × ℚ))
    (anim : AnimFunc) (t : ℚ) : List ℕ :=
  ((List.range cfg.numChannels).map fun ch =>
      send_frame_flat ch (frame_buffer cfg coords anim t)
        (ch * cfg.ledsPerChannel * 3) cfg.ledsPerChannel).flatten ++
    flush_packet 0xFF

/-! ## WebSocket takeover server (`WebSocketServer.handleConnection`) -/

/-- The error codes the server sends as JSON. -/
inductive ErrCode where
  | EVICTED
  | SERVER_BUSY
  | IDLE_TIMEOUT
  | SERIAL_ERROR
  | SHUTDOWN
deriving DecidableEq

/-- Externally visible outcome of one connection attempt. -/
structure ConnOutcome where
  newAccepted : Bool
  errorToOld : Option ErrCode
  oldClosed : Bool
  errorToNew : Option (ErrCode × Option ℤ)
  newClosed : Bool
deriving DecidableEq

/-- The server's client slot: `some t0` is an active client whose
`activeClientConnectTime` is `t0` (milliseconds), `none` is no client. -/
structure WsState where
  activeClientConnectTime : Option ℚ
deriving DecidableEq

/-- `handleConnection` at time `now` (ms) with eviction age `evictionAge`
(seconds): no active client → accept; active client of age `≥ evictionAge`
→ send `EVICTED` to it, close it, accept the new one; otherwise send
`SERVER_BUSY` with `retryAfter = Math.ceil(evictionAge - age)` and close
the new one.  `acceptConnection` records `Date.now()` as the connect
time. -/
def handle_connection (evictionAge : ℚ) (s : WsState) (now : ℚ) :
    ConnOutcome × WsState :=
  match s.activeClientConnectTime with
  | some t0 =>
    let connectionAge := (now - t0) / 1000
    if connectionAge ≥ evictionAge then
      ({ newAccepted := true
         errorToOld := some ErrCode.EVICTED
         oldClosed := true
         errorToNew := none
         newClosed := false },
       { activeClientConnectTime := some now })
    else
      ({ newAccepted := false
         errorToOld := none
         oldClosed := false
         errorToNew := some (ErrCode.SERVER_BUSY, some ⌈evictionAge - connectionAge⌉)
         newClosed := true },
       s)
  | none =>
    ({ newAccepted := true
       errorToOld := none
       oldClosed := false
       errorToNew := none
       newClosed := false },
     { activeClientConnectTime := some now })

/-! ## Coordinate loader (`CoordinateLoader.normalizeCoordinates`) -/

/-- One parsed record of the coordinate file. -/
structure RawCoord where
  id : ℕ
  x : ℚ
  y : ℚ
  z : ℚ

/-- The per-axis minimum of `normalizeCoordinates`'s bounding-box scan
(the JS fold starts at `Infinity`, so over a nonempty list it is the fold
of `min` over all elements). -/
def axis_min (f : RawCoord → ℚ) : List RawCoord → ℚ
  | [] => 0
  | r0 :: rest => ((r0 :: rest).map f).foldl min (f r0)

/-- The per-axis maximum, dually. -/
def axis_max (f : RawCoord → ℚ) : List RawCoord → ℚ
  | [] => 0
  | r0 :: rest => ((r0 :: rest).map f).foldl max (f r0)

/-- One axis of the normalisation:
`range > 0 ? (v - min) / range : 0.5`. -/
def norm_axis (v mn range : ℚ) : ℚ :=
  if 0 < range then (v - mn) / range else 1 / 2

/-- `normalizeCoordinates`: early-return on an empty record list, otherwise
normalise each record into the sparse id-keyed mapping (later records with
the same id overwrite earlier ones, as in the JS loop). -/
def normalize_coordinates (raw : List RawCoord) : ℕ → Option (ℚ × ℚ × ℚ) :=
  match raw with
  | [] => fun _ => none
  | r0 :: rest =>
    let all := r0 :: rest
    let xMin := axis_min (fun r => r.x) all
    let yMin := axis_min (fun r => r.y) all
    let zMin := axis_min (fun r => r.z) all
    let xRange := axis_max (fun r => r.x) all - xMin
    let yRange := axis_max (fun r => r.y) all - yMin
    let zRange := axis_max (fun r => r.z) all - zMin
    all.foldl
      (fun acc c => fun j =>
        if j = c.id then
          some (norm_axis c.x xMin xRange, norm_axis c.y yMin yRange,
                norm_axis c.z zMin zRange)
        else acc j)
      (fun _ => none)

/-! ## Ternary calibration encoding (`get_ternary_digit`) -/

/-- The encoded value: `n = led_id * 9`, then `n += 7 - (n % 7)`. -/
def ternary_encode (led_id : ℕ) : ℕ :=
  let n := led_id * 9
  n + (7 - n % 7)

/-- `get_ternary_digit`: divide the encoded value by 3, `digit_pos` times,
and take the remainder mod 3. -/
def get_ternary_digit (led_id digit_pos : ℕ) : ℕ :=
  ((fun m => m / 3)^[digit_pos] (ternary_encode led_id)) % 3

/-! ## Auxiliary definitions for concrete statements -/

/-- RGB byte payload of an update command, one `[R, G, B]` group per LED. -/
def rgb_payload (triples : List (ℕ × ℕ × ℕ)) : List ℕ :=
  triples.flatMap fun tr => [tr.1, tr.2.1, tr.2.2]

/-- Extract the gamma-corrected green component of a packed GRB word. -/
def grb_g (w : ℕ) : ℕ := w / 256 / 65536 % 256

/-- Extract the gamma-corrected red component of a packed GRB word. -/
def grb_r (w : ℕ) : ℕ := w / 256 / 256 % 256

/-- Extract the gamma-corrected blue component of a packed GRB word. -/
def grb_b (w : ℕ) : ℕ := w / 256 % 256

/-- Round to nearest (half up), the reading of the specification's
"round-to-nearest" for the current limiter. -/
def round_nearest (q : ℚ) : ℕ := ⌊q + 1 / 2⌋₊

/-- An animation that unconditionally returns `(1, 0, 0)` (scenario S1). -/
def const_red_anim : AnimFunc :=
  fun _ _ _ => some [JsNum.val 1, JsNum.val 0, JsNum.val 0]

/-- An animation whose first returned component is `+∞`. -/
def inf_anim : AnimFunc :=
  fun _ _ _ => some [JsNum.posInf, JsNum.val 0, JsNum.val 0]

/-- An animation that raises an error on every call. -/
def err_anim : AnimFunc := fun _ _ _ => none

/-- A coordinate store in which every id has a (normalized) coordinate. -/
def coords_all_origin : ℕ → Option (ℚ × ℚ × ℚ) := fun _ => some (0, 0, 0)

/-- A channel whose active buffer holds 40 white LEDs followed by one dim
red LED `(1, 0, 0)` (identity gamma table), total brightness `30601`. -/
def cx_channel : Ws2812Channel :=
  { active_buffer := fun i =>
      if i < 40 then rgb_to_grb (fun n => n) 255 255 255
      else if i = 40 then rgb_to_grb (fun n => n) 1 0 0
      else 0
    output_buffer := fun _ => 0
    led_count := 41
    current_limit_events := 0 }

/-- Two parsed coordinate records: ids 0 and 1, degenerate z axis. -/
def raw_demo : List RawCoord := [⟨0, 0, 0, 5⟩, ⟨1, 2, 1, 5⟩]

/-- A device that has been put into test-pattern mode 4 (ternary) by the
host command `FB 04`. -/
def pattern_device : DeviceState := run_bytes (fun n => n) initial_device [0xFB, 0x04]

/-- Scenario S5, first sequence: update addressed to invalid channel 9. -/
def s5_first : List ℕ := [0xFE, 0x09, 0x01, 0x00, 0xFF, 0x00, 0x00]

/-- Scenario S5, second sequence: a 1-LED Update+Flush for channel 0. -/
def s5_second : List ℕ := [0xFF, 0x00, 0x01, 0x00, 0x10, 0x20, 0x30]

/-! ## Theorems -/

/-- Claim C8: the gamma lookup table computed at boot from
`gamma_lut[i] = round((i/255)^γ · 255)` with `γ > 0` is nondecreasing:
for all `i, j` in `[0, 255]`, `i ≤ j` implies `gamma_lut[i] ≤ gamma_lut[j]`. -/
theorem gamma_lut_monotone (γ : ℝ) (hγ : 0 < γ) (i j : ℕ) (hij : i ≤ j)
    (hj : j ≤ 255) : gamma_lut γ i ≤ gamma_lut γ j := by
  unfold gamma_lut
  by_cases hi : i = 0
  · simp [hi]
  · have hjne : j ≠ 0 := by omega
    rw [if_neg hi, if_neg hjne]
    have hij2 : (i : ℝ) ≤ (j : ℝ) := by exact_mod_cast hij
    have hbase : ((i : ℝ) / 255) ^ γ ≤ ((j : ℝ) / 255) ^ γ := by
      apply Real.rpow_le_rpow
      · positivity
      · gcongr
      · exact hγ.le
    have harg : ((i : ℝ) / 255) ^ γ * 255 + 1 / 2 ≤
        ((j : ℝ) / 255) ^ γ * 255 + 1 / 2 := by linarith
    exact Nat.floor_le_floor harg

/-- Witness for C8 at the firmware's default `γ = 2.8`, `i = 3`, `j = 5`. -/
theorem gamma_lut_monotone_witness :
    (0 : ℝ) < 2.8 ∧ (3 : ℕ) ≤ 5 ∧ (5 : ℕ) ≤ 255 ∧
    gamma_lut 2.8 3 ≤ gamma_lut 2.8 5 :=
  ⟨by norm_num, by norm_num, by norm_num,
    gamma_lut_monotone 2.8 (by norm_num) 3 5 (by norm_num) (by norm_num)⟩

/-- Repeated division by 3 is division by a power of 3. -/
theorem iterate_div3 (k n : ℕ) : (fun m => m / 3)^[k] n = n / 3 ^ k := by
  induction k generalizing n with
  | zero => simp
  | succ k ih =>
    rw [Function.iterate_succ_apply, ih (n / 3), Nat.div_div_eq_div_mul,
      pow_succ, mul_comm]

/-- Two naturals with the same first `d` base-3 digits agree modulo `3 ^ d`. -/
theorem mod_pow3_eq_of_digits_eq (d n m : ℕ)
    (h : ∀ k < d, n / 3 ^ k % 3 = m / 3 ^ k % 3) : n % 3 ^ d = m % 3 ^ d := by
  induction d generalizing n m with
  | zero => simp [Nat.mod_one]
  | succ d ih =>
    have key : ∀ t : ℕ, t % 3 ^ (d + 1) = 3 * (t / 3 % 3 ^ d) + t % 3 := by
      intro t
      rw [pow_succ, mul_comm (3 ^ d) 3]
      conv_lhs => rw [← Nat.div_add_mod (t % (3 * 3 ^ d)) 3]
      rw [Nat.mod_mul_right_div_self, Nat.mod_mod_of_dvd _ ⟨3 ^ d, rfl⟩]
    have h0 : n % 3 = m % 3 := by simpa using h 0 (by omega)
    have hrec : n / 3 % 3 ^ d = m / 3 % 3 ^ d := by
      apply ih
      intro k hk
      have hx := h (k + 1) (by omega)
      rw [pow_succ, mul_comm, ← Nat.div_div_eq_div_mul,
        ← Nat.div_div_eq_div_mul] at hx
      exact hx
    rw [key n, key m, h0, hrec]

/-- The `·9 + checksum-to-7` encoding is injective (on all of ℕ). -/
theorem ternary_encode_inj (a b : ℕ) (h : ternary_encode a = ternary_encode b) :
    a = b := by
  simp only [ternary_encode] at h
  have ha : a * 9 % 7 < 7 := Nat.mod_lt _ (by norm_num)
  have hb : b * 9 % 7 < 7 := Nat.mod_lt _ (by norm_num)
  omega

/-- Claim C7: for any two distinct global LED ids in `[0, 8·200)`, the
9-digit base-3 sequences produced by the ternary calibration encoding
`n = id·9 + (7 − (id·9 mod 7))` differ in at least one digit position:
the encoding is injective on that range and every encoded value fits in
9 base-3 digits. -/
theorem ternary_digits_unique :
    (∀ id < NUM_CHANNELS * MAX_LEDS_PER_CHANNEL,
        ternary_encode id < 3 ^ TERNARY_NUM_DIGITS) ∧
    ∀ a b, a < NUM_CHANNELS * MAX_LEDS_PER_CHANNEL →
      b < NUM_CHANNELS * MAX_LEDS_PER_CHANNEL → a ≠ b →
      ∃ k < TERNARY_NUM_DIGITS, get_ternary_digit a k ≠ get_ternary_digit b k := by
  have hbound : ∀ id < NUM_CHANNELS * MAX_LEDS_PER_CHANNEL,
      ternary_encode id < 3 ^ TERNARY_NUM_DIGITS := by
    intro id hid
    have hm : id * 9 % 7 < 7 := Nat.mod_lt _ (by norm_num)
    have hid2 : id < 1600 := by
      simpa [NUM_CHANNELS, MAX_LEDS_PER_CHANNEL] using hid
    have hpow : (3 : ℕ) ^ TERNARY_NUM_DIGITS = 19683 := by
      norm_num [TERNARY_NUM_DIGITS]
    simp only [ternary_encode]
    omega
  refine ⟨hbound, ?_⟩
  intro a b ha hb hne
  by_contra hcon
  push_neg at hcon
  have hdig : ∀ k < TERNARY_NUM_DIGITS,
      ternary_encode a / 3 ^ k % 3 = ternary_encode b / 3 ^ k % 3 := by
    intro k hk
    have hk2 := hcon k hk
    rwa [get_ternary_digit, get_ternary_digit, iterate_div3, iterate_div3] at hk2
  have hmod := mod_pow3_eq_of_digits_eq TERNARY_NUM_DIGITS _ _ hdig
  rw [Nat.mod_eq_of_lt (hbound a ha), Nat.mod_eq_of_lt (hbound b hb)] at hmod
  exact hne (ternary_encode_inj a b hmod)

/-- Witness for C7 at ids 0 and 1. -/
theorem ternary_digits_unique_witness :
    (0 < NUM_CHANNELS * MAX_LEDS_PER_CHANNEL) ∧
    (1 < NUM_CHANNELS * MAX_LEDS_PER_CHANNEL) ∧ (0 : ℕ) ≠ 1 ∧
    ∃ k < TERNARY_NUM_DIGITS, get_ternary_digit 0 k ≠ get_ternary_digit 1 k :=
  ⟨by decide, by decide, by decide,
    ternary_digits_unique.2 0 1 (by decide) (by decide) (by decide)⟩

/-- Effect of `apply_current_limiting` above the threshold: each in-range
pixel of the active buffer is rescaled (with truncation) and the
limit-event counter is incremented. -/
theorem apply_current_limiting_ne (ch : Ws2812Channel)
    (hgt : CURRENT_LIMIT_THRESHOLD < channel_total_brightness ch) :
    (apply_current_limiting ch).current_limit_events = ch.current_limit_events + 1 ∧
    (∀ i < ch.led_count,
      (apply_current_limiting ch).active_buffer i =
        scale_pixel (ch.active_buffer i)
          ((CURRENT_LIMIT_THRESHOLD : ℚ) / (channel_total_brightness ch : ℚ))) ∧
    (∀ i, ch.led_count ≤ i →
      (apply_current_limiting ch).active_buffer i = ch.active_buffer i) := by
  have h0 : ch.led_count ≠ 0 := by
    intro h0
    have hz : channel_total_brightness ch = 0 := by
      simp [channel_total_brightness, h0]
    rw [hz] at hgt
    exact absurd hgt (by simp [CURRENT_LIMIT_THRESHOLD])
  unfold apply_current_limiting
  rw [if_neg h0, if_pos hgt]
  refine ⟨rfl, ?_, ?_⟩
  · intro i hi
    simp [hi]
  · intro i hi
    simp [Nat.not_lt.mpr hi]

/-- Claim C3, amended: a channel whose active-buffer brightness sum exceeds
the threshold is rescaled LED by LED by `scale = threshold / sum` with each
component truncated toward zero (the `(uint8_t)` cast in the source), not
rounded to nearest, and the limit-event counter is incremented; a channel
whose sum is `≤` the threshold is left unmodified. -/
theorem apply_current_limiting_spec (ch : Ws2812Channel) :
    (channel_total_brightness ch ≤ CURRENT_LIMIT_THRESHOLD →
      apply_current_limiting ch = ch) ∧
    (CURRENT_LIMIT_THRESHOLD < channel_total_brightness ch →
      (apply_current_limiting ch).current_limit_events =
        ch.current_limit_events + 1 ∧
      (∀ i < ch.led_count,
        (apply_current_limiting ch).active_buffer i =
          scale_pixel (ch.active_buffer i)
            ((CURRENT_LIMIT_THRESHOLD : ℚ) / (channel_total_brightness ch : ℚ))) ∧
      (∀ i, ch.led_count ≤ i →
        (apply_current_limiting ch).active_buffer i = ch.active_buffer i)) := by
  constructor
  · intro hle
    unfold apply_current_limiting
    by_cases h0 : ch.led_count = 0
    · simp [h0]
    · rw [if_neg h0, if_neg (by omega)]
  · exact apply_current_limiting_ne ch

/-- Witness for C3 (amended): the empty boot channel is left unmodified;
`cx_channel` (brightness sum `30601 > 30000`) gets its limit-event counter
incremented. -/
theorem apply_current_limiting_spec_witness :
    (channel_total_brightness initial_channel ≤ CURRENT_LIMIT_THRESHOLD ∧
      apply_current_limiting initial_channel = initial_channel) ∧
    (CURRENT_LIMIT_THRESHOLD < channel_total_brightness cx_channel ∧
      (apply_current_limiting cx_channel).current_limit_events =
        cx_channel.current_limit_events + 1) :=
  ⟨⟨by decide, (apply_current_limiting_spec initial_channel).1 (by decide)⟩,
   ⟨by decide, ((apply_current_limiting_spec cx_channel).2 (by decide)).1⟩⟩

/-- Counterexample to C3 as stated: in `cx_channel` the brightness sum is
`30601 > 30000`, the dim LED 40 has red component `1`, and the limiter
produces red component `0` (truncation of `1 · 30000/30601`), whereas
round-to-nearest — as the claim states — would give `1`. -/
theorem current_limit_truncation_cx :
    CURRENT_LIMIT_THRESHOLD < channel_total_brightness cx_channel ∧
    grb_r (cx_channel.active_buffer 40) = 1 ∧
    grb_r ((apply_current_limiting cx_channel).active_buffer 40) = 0 ∧
    round_nearest ((grb_r (cx_channel.active_buffer 40) : ℚ) *
      ((CURRENT_LIMIT_THRESHOLD : ℚ) / (channel_total_brightness cx_channel : ℚ))) = 1 := by
  have hsum : channel_total_brightness cx_channel = 30601 := by decide
  have hgt : CURRENT_LIMIT_THRESHOLD < channel_total_brightness cx_channel := by
    rw [hsum]; decide
  have hb40 : cx_channel.active_buffer 40 = 65536 := by decide
  have hfl : (⌊(30000 / 30601 : ℚ)⌋₊ : ℕ) = 0 := by
    rw [Nat.floor_eq_zero]
    norm_num
  refine ⟨hgt, by decide, ?_, ?_⟩
  · have hscale := (apply_current_limiting_ne cx_channel hgt).2.1 40 (by decide)
    rw [hscale, hsum, hb40]
    show grb_r (scale_pixel 65536 ((30000 : ℚ) / 30601)) = 0
    norm_num [grb_r, scale_pixel, hfl]
  · rw [hsum]
    show round_nearest ((grb_r 65536 : ℚ) * ((30000 : ℚ) / (30601 : ℚ))) = 1
    have hg : (grb_r 65536 : ℚ) = 1 := by norm_num [grb_r]
    rw [hg, one_mul, round_nearest]
    rw [Nat.floor_eq_iff (by positivity)]
    constructor <;> norm_num

/-- Claim C4: on every WebSocket connection attempt — no active client →
accept and record the connect time; active client with age
`(now − connect_time) ≥ eviction age` → send it `EVICTED`, close it and
accept the new client; otherwise send the new client `SERVER_BUSY` with
`retryAfter = ⌈eviction_age − age⌉` seconds and close it. -/
theorem handle_connection_spec (evictionAge : ℚ) (s : WsState) (now t0 : ℚ) :
    (s.activeClientConnectTime = none →
      handle_connection evictionAge s now =
        ({ newAccepted := true, errorToOld := none, oldClosed := false,
           errorToNew := none, newClosed := false },
         { activeClientConnectTime := some now })) ∧
    (s.activeClientConnectTime = some t0 → (now - t0) / 1000 ≥ evictionAge →
      handle_connection evictionAge s now =
        ({ newAccepted := true, errorToOld := some ErrCode.EVICTED,
           oldClosed := true, errorToNew := none, newClosed := false },
         { activeClientConnectTime := some now })) ∧
    (s.activeClientConnectTime = some t0 → (now - t0) / 1000 < evictionAge →
      handle_connection evictionAge s now =
        ({ newAccepted := false, errorToOld := none, oldClosed := false,
           errorToNew := some (ErrCode.SERVER_BUSY, some ⌈evictionAge - (now - t0) / 1000⌉),
           newClosed := true },
         s)) := by
  refine ⟨?_, ?_, ?_⟩
  · intro h
    simp [handle_connection, h]
  · intro h hage
    simp [handle_connection, h, hage]
  · intro h hage
    simp [handle_connection, h, not_le.mpr hage, hage]

/-- Witness for C4: scenario S3 with eviction age 1 s — a fresh accept at
`t = 0`, a busy rejection with `retryAfter = 1` at `t = 0.5 s`, and an
eviction at `t = 1.2 s`. -/
theorem handle_connection_spec_witness :
    ((WsState.mk none).activeClientConnectTime = none ∧
      handle_connection 1 (WsState.mk none) 0 =
        ({ newAccepted := true, errorToOld := none, oldClosed := false,
           errorToNew := none, newClosed := false },
         { activeClientConnectTime := some 0 })) ∧
    ((WsState.mk (some 0)).activeClientConnectTime = some 0 ∧
      ((500 : ℚ) - 0) / 1000 < 1 ∧
      handle_connection 1 (WsState.mk (some 0)) 500 =
        ({ newAccepted := false, errorToOld := none, oldClosed := false,
           errorToNew := some (ErrCode.SERVER_BUSY, some 1), newClosed := true },
         WsState.mk (some 0))) ∧
    ((WsState.mk (some 0)).activeClientConnectTime = some 0 ∧
      ((1200 : ℚ) - 0) / 1000 ≥ 1 ∧
      handle_connection 1 (WsState.mk (some 0)) 1200 =
        ({ newAccepted := true, errorToOld := some ErrCode.EVICTED,
           oldClosed := true, errorToNew := none, newClosed := false },
         { activeClientConnectTime := some 1200 })) := by
  refine ⟨⟨rfl, (handle_connection_spec 1 (WsState.mk none) 0 0).1 rfl⟩,
    ⟨rfl, by norm_num, ?_⟩, ⟨rfl, by norm_num, ?_⟩⟩
  · have h := (handle_connection_spec 1 (WsState.mk (some 0)) 500 0).2.2 rfl (by norm_num)
    rw [h]
    norm_num
    rw [Int.ceil_eq_iff]
    constructor <;> norm_num
  · exact (handle_connection_spec 1 (WsState.mk (some 0)) 1200 0).2.1 rfl (by norm_num)

/-- Folding `min` never exceeds the seed. -/
theorem foldl_min_le_init (l : List ℚ) (b : ℚ) : l.foldl min b ≤ b := by
  induction l generalizing b with
  | nil => simp
  | cons x xs ih =>
    calc (x :: xs).foldl min b = xs.foldl min (min b x) := rfl
    _ ≤ min b x := ih _
    _ ≤ b := min_le_left _ _

/-- Folding `min` never exceeds any list element. -/
theorem foldl_min_le_of_mem {l : List ℚ} {a : ℚ} (h : a ∈ l) (b : ℚ) :
    l.foldl min b ≤ a := by
  induction l generalizing b with
  | nil => cases h
  | cons x xs ih =>
    rcases List.mem_cons.mp h with rfl | hmem
    · calc (a :: xs).foldl min b = xs.foldl min (min b a) := rfl
      _ ≤ min b a := foldl_min_le_init _ _
      _ ≤ a := min_le_right _ _
    · exact ih hmem _

/-- Folding `max` dominates the seed. -/
theorem init_le_foldl_max (l : List ℚ) (b : ℚ) : b ≤ l.foldl max b := by
  induction l generalizing b with
  | nil => simp
  | cons x xs ih =>
    calc b ≤ max b x := le_max_left _ _
    _ ≤ xs.foldl max (max b x) := ih _
    _ = (x :: xs).foldl max b := rfl

/-- Folding `max` dominates every list element. -/
theorem le_foldl_max_of_mem {l : List ℚ} {a : ℚ} (h : a ∈ l) (b : ℚ) :
    a ≤ l.foldl max b := by
  induction l generalizing b with
  | nil => cases h
  | cons x xs ih =>
    rcases List.mem_cons.mp h with rfl | hmem
    · calc a ≤ max b a := le_max_right _ _
      _ ≤ xs.foldl max (max b a) := init_le_foldl_max _ _
      _ = (a :: xs).foldl max b := rfl
    · exact ih hmem _

/-- The bounding-box minimum is a lower bound for every record. -/
theorem axis_min_le (f : RawCoord → ℚ) (raw : List RawCoord) {c : RawCoord}
    (hc : c ∈ raw) : axis_min f raw ≤ f c := by
  match raw with
  | [] => cases hc
  | r0 :: rest =>
    exact foldl_min_le_of_mem (List.mem_map_of_mem f hc) _

/-- The bounding-box maximum is an upper bound for every record. -/
theorem le_axis_max (f : RawCoord → ℚ) (raw : List RawCoord) {c : RawCoord}
    (hc : c ∈ raw) : f c ≤ axis_max f raw := by
  match raw with
  | [] => cases hc
  | r0 :: rest =>
    exact le_foldl_max_of_mem (List.mem_map_of_mem f hc) _

/-- Every value found in the id-keyed fold was produced from a record of
the list (or was already in the accumulator). -/
theorem foldl_update_lookup {α : Type} (g : RawCoord → α) (l : List RawCoord)
    (acc : ℕ → Option α) (id : ℕ) (p : α)
    (h : (l.foldl (fun acc2 c => fun j => if j = c.id then some (g c) else acc2 j) acc) id
      = some p) :
    (∃ c ∈ l, c.id = id ∧ p = g c) ∨ acc id = some p := by
  induction l generalizing acc with
  | nil => exact Or.inr h
  | cons c l ih =>
    rcases ih _ h with ⟨c2, hc2, hid, hp⟩ | hacc
    · exact Or.inl ⟨c2, List.mem_cons_of_mem _ hc2, hid, hp⟩
    · have hacc2 : (if id = c.id then some (g c) else acc id) = some p := hacc
      by_cases hid : id = c.id
      · rw [if_pos hid] at hacc2
        exact Or.inl ⟨c, List.mem_cons_self .., hid.symm, (Option.some_inj.mp hacc2).symm⟩
      · rw [if_neg hid] at hacc2
        exact Or.inr hacc2

/-- One normalized axis value lies in `[0, 1]` whenever the input lies
between the axis bounds. -/
theorem norm_axis_bounds (v mn mx : ℚ) (h1 : mn ≤ v) (h2 : v ≤ mx) :
    0 ≤ norm_axis v mn (mx - mn) ∧ norm_axis v mn (mx - mn) ≤ 1 := by
  unfold norm_axis
  by_cases hr : 0 < mx - mn
  · rw [if_pos hr]
    constructor
    · apply div_nonneg <;> linarith
    · rw [div_le_one hr]
      linarith
  · rw [if_neg hr]
    norm_num

/-- Claim C6: after the coordinate store is loaded, every stored coordinate
component lies in `[0, 1]` (computed as `(v − min) / (max − min)` per axis),
and on an axis of zero extent the component is exactly `1/2`. -/
theorem coordinate_normalization (raw : List RawCoord) (id : ℕ) (x y z : ℚ)
    (h : normalize_coordinates raw id = some (x, y, z)) :
    (0 ≤ x ∧ x ≤ 1 ∧ 0 ≤ y ∧ y ≤ 1 ∧ 0 ≤ z ∧ z ≤ 1) ∧
    (axis_max (fun r => r.x) raw - axis_min (fun r => r.x) raw = 0 → x = 1 / 2) ∧
    (axis_max (fun r => r.y) raw - axis_min (fun r => r.y) raw = 0 → y = 1 / 2) ∧
    (axis_max (fun r => r.z) raw - axis_min (fun r => r.z) raw = 0 → z = 1 / 2) := by
  match raw with
  | [] => exact absurd h (by simp [normalize_coordinates])
  | r0 :: rest =>
    rcases foldl_update_lookup _ _ _ _ _ h with ⟨c, hc, hcid, hp⟩ | habs
    · have hx := norm_axis_bounds c.x (axis_min (fun r => r.x) (r0 :: rest))
        (axis_max (fun r => r.x) (r0 :: rest))
        (axis_min_le _ _ hc) (le_axis_max _ _ hc)
      have hy := norm_axis_bounds c.y (axis_min (fun r => r.y) (r0 :: rest))
        (axis_max (fun r => r.y) (r0 :: rest))
        (axis_min_le _ _ hc) (le_axis_max _ _ hc)
      have hz := norm_axis_bounds c.z (axis_min (fun r => r.z) (r0 :: rest))
        (axis_max (fun r => r.z) (r0 :: rest))
        (axis_min_le _ _ hc) (le_axis_max _ _ hc)
      obtain ⟨hpx, hpy, hpz⟩ : x = norm_axis c.x (axis_min (fun r => r.x) (r0 :: rest))
            (axis_max (fun r => r.x) (r0 :: rest) - axis_min (fun r => r.x) (r0 :: rest)) ∧
          y = norm_axis c.y (axis_min (fun r => r.y) (r0 :: rest))
            (axis_max (fun r => r.y) (r0 :: rest) - axis_min (fun r => r.y) (r0 :: rest)) ∧
          z = norm_axis c.z (axis_min (fun r => r.z) (r0 :: rest))
            (axis_max (fun r => r.z) (r0 :: rest) - axis_min (fun r => r.z) (r0 :: rest)) := by
        have hp2 := hp
        simp at hp2
        exact ⟨hp2.1, hp2.2.1, hp2.2.2⟩
      refine ⟨⟨?_, ?_, ?_, ?_, ?_, ?_⟩, ?_, ?_, ?_⟩
      · rw [hpx]; exact hx.1
      · rw [hpx]; exact hx.2
      · rw [hpy]; exact hy.1
      · rw [hpy]; exact hy.2
      · rw [hpz]; exact hz.1
      · rw [hpz]; exact hz.2
      · intro hdeg
        rw [hpx, hdeg, norm_axis, if_neg (by norm_num)]
      · intro hdeg
        rw [hpy, hdeg, norm_axis, if_neg (by norm_num)]
      · intro hdeg
        rw [hpz, hdeg, norm_axis, if_neg (by norm_num)]
    · exact absurd habs (by simp)

/-- Witness for C6 on `raw_demo` (ids 0, 1; the z axis is degenerate). -/
theorem coordinate_normalization_witness :
    normalize_coordinates raw_demo 1 = some (1, 1, 1 / 2) ∧
    ((0 : ℚ) ≤ 1 ∧ (1 : ℚ) ≤ 1 ∧ (0 : ℚ) ≤ 1 ∧ (1 : ℚ) ≤ 1 ∧
      (0 : ℚ) ≤ 1 / 2 ∧ (1 / 2 : ℚ) ≤ 1) ∧
    (axis_max (fun r => r.z) raw_demo - axis_min (fun r => r.z) raw_demo = 0 →
      (1 / 2 : ℚ) = 1 / 2) := by
  have hdemo : normalize_coordinates raw_demo 1 = some (1, 1, 1 / 2) := by
    norm_num [normalize_coordinates, raw_demo, axis_min, axis_max, norm_axis,
      min_def, max_def, List.foldl]
  exact ⟨hdemo, (coordinate_normalization raw_demo 1 1 1 (1 / 2) hdemo).1,
    (coordinate_normalization raw_demo 1 1 1 (1 / 2) hdemo).2.2.2⟩

/-- One tick over 1 channel × 2 LEDs with the solid red animation and fully
covered coordinates writes `FE 00 02 00 FF 00 00 FF 00 00` followed by
`FD FF` — the flush mask the engine always passes is `0xFF`. -/
theorem single_red_frame_bytes (coords : ℕ → Option (ℚ × ℚ × ℚ))
    (h : ∀ id < 2, (coords id).isSome) (t : ℚ) :
    render_frame_bytes ⟨1, 2⟩ coords const_red_anim t =
      [0xFE, 0x00, 0x02, 0x00, 0xFF, 0x00, 0x00, 0xFF, 0x00, 0x00, 0xFD, 0xFF] := by
  obtain ⟨c0, hc0⟩ := Option.isSome_iff_exists.mp (h 0 (by norm_num))
  obtain ⟨c1, hc1⟩ := Option.isSome_iff_exists.mp (h 1 (by norm_num))
  have h1 : List.range 1 = [0] := rfl
  have h6 : List.range 6 = [0, 1, 2, 3, 4, 5] := rfl
  norm_num [render_frame_bytes, send_frame_flat, flush_packet, frame_buffer,
    render_led, const_red_anim, EngineConfig.totalLeds, toUint8Clamp, jsMul255,
    h1, h6, hc0, hc1, CMD_UPDATE_ONLY, CMD_FLUSH]

/-- Witness for C1 (amended) at the all-origin coordinate store. -/
theorem single_red_frame_bytes_witness :
    (∀ id < 2, (coords_all_origin id).isSome) ∧
    render_frame_bytes ⟨1, 2⟩ coords_all_origin const_red_anim 0 =
      [0xFE, 0x00, 0x02, 0x00, 0xFF, 0x00, 0x00, 0xFF, 0x00, 0x00, 0xFD, 0xFF] :=
  ⟨fun _ _ => rfl, single_red_frame_bytes coords_all_origin (fun _ _ => rfl) 0⟩

/-- Concrete evaluation of the S1 tick (used by the counterexample). -/
theorem red_frame_bytes_eval :
    render_frame_bytes ⟨1, 2⟩ coords_all_origin const_red_anim 0 =
      [0xFE, 0x00, 0x02, 0x00, 0xFF, 0x00, 0x00, 0xFF, 0x00, 0x00, 0xFD, 0xFF] := by
  have h1 : List.range 1 = [0] := rfl
  have h6 : List.range 6 = [0, 1, 2, 3, 4, 5] := rfl
  norm_num [render_frame_bytes, send_frame_flat, flush_packet, frame_buffer,
    render_led, const_red_anim, coords_all_origin, EngineConfig.totalLeds,
    toUint8Clamp, jsMul255, h1, h6, CMD_UPDATE_ONLY, CMD_FLUSH]

/-- Counterexample to C1 as stated: the tick does not end with `FD 01` —
`renderFrame` always calls `flush(0xFF)`, so the last byte is `FF`. -/
theorem single_red_frame_claimed_bytes_cx :
    render_frame_bytes ⟨1, 2⟩ coords_all_origin const_red_anim 0 ≠
      [0xFE, 0x00, 0x02, 0x00, 0xFF, 0x00, 0x00, 0xFF, 0x00, 0x00, 0xFD, 0x01] := by
  rw [red_frame_bytes_eval]
  simp

/-- Claim C5, amended: a raised error or a result that is not a sequence of
at least 3 components yields black for that LED, and each LED's bytes
depend only on the animation's behaviour at that LED (the tick is never
aborted); but a non-finite component is not treated as black: the
`Uint8ClampedArray` store clamps `+∞` to `255` (and `NaN` to `0`). -/
theorem render_led_fault_model (coords : ℕ → Option (ℚ × ℚ × ℚ))
    (anim anim2 : AnimFunc) (t : ℚ) (id : ℕ) :
    (∀ c, coords id = some c → anim c t id = none →
      render_led coords anim t id = (0, 0, 0)) ∧
    (∀ c l, coords id = some c → anim c t id = some l → l.length < 3 →
      render_led coords anim t id = (0, 0, 0)) ∧
    ((∀ c, anim c t id = anim2 c t id) →
      render_led coords anim t id = render_led coords anim2 t id) ∧
    (∀ c l, coords id = some c → anim c t id = some (JsNum.posInf :: l) →
      2 ≤ l.length → (render_led coords anim t id).1 = 255) ∧
    (∀ c l, coords id = some c → anim c t id = some (JsNum.nan :: l) →
      2 ≤ l.length → (render_led coords anim t id).1 = 0) := by
  refine ⟨?_, ?_, ?_, ?_, ?_⟩
  · intro c hc ha
    simp [render_led, hc, ha]
  · intro c l hc ha hl
    simp [render_led, hc, ha, hl]
  · intro hagree
    simp only [render_led]
    cases hcoords : coords id with
    | none => rfl
    | some c => simp only [hagree c]
  · intro c l hc ha hl
    have hlen : ¬(l.length + 1 < 3) := by omega
    simp [render_led, hc, ha, hlen, List.getD, toUint8Clamp, jsMul255]
  · intro c l hc ha hl
    have hlen : ¬(l.length + 1 < 3) := by omega
    simp [render_led, hc, ha, hlen, List.getD, toUint8Clamp, jsMul255]

/-- Witness for C5 (amended): an error-raising animation yields black at
LED 0; an animation returning `[+∞, 0, 0]` yields first byte 255. -/
theorem render_led_fault_model_witness :
    (coords_all_origin 0 = some (0, 0, 0) ∧ err_anim (0, 0, 0) 0 0 = none ∧
      render_led coords_all_origin err_anim 0 0 = (0, 0, 0)) ∧
    (inf_anim (0, 0, 0) 0 0 = some (JsNum.posInf :: [JsNum.val 0, JsNum.val 0]) ∧
      2 ≤ [JsNum.val 0, JsNum.val 0].length ∧
      (render_led coords_all_origin inf_anim 0 0).1 = 255) :=
  ⟨⟨rfl, rfl, (render_led_fault_model coords_all_origin err_anim err_anim 0 0).1
      (0, 0, 0) rfl rfl⟩,
   ⟨rfl, by norm_num,
    (render_led_fault_model coords_all_origin inf_anim inf_anim 0 0).2.2.2.1
      (0, 0, 0) [JsNum.val 0, JsNum.val 0] rfl rfl (by norm_num)⟩⟩

/-- Counterexample to C5 as stated: the result `[+∞, 0, 0]` contains a
non-finite component, yet the engine emits `(255, 0, 0)`, not black. -/
theorem nonfinite_component_not_black_cx :
    render_led coords_all_origin inf_anim 0 0 = (255, 0, 0) ∧
    ((255 : ℕ), (0 : ℕ), (0 : ℕ)) ≠ ((0 : ℕ), (0 : ℕ), (0 : ℕ)) := by
  constructor
  · norm_num [render_led, coords_all_origin, inf_anim, toUint8Clamp, jsMul255,
      List.getD]
  · simp

/-- Counterexample to C2 as stated: feeding `FE 09 01 00 FF 00 00` followed
by `FF 00 01 00 10 20 30` to the booted device yields error count 2 (not 1),
no flush at all, channel 0 LED 0 never written; the parser is not even back
in `WAIT_COMMAND` after the first sequence (it sits in `READ_COUNT_HIGH`,
having consumed the dropped command's payload as new input). -/
theorem parser_recovery_cx :
    (run_bytes device_lut initial_device (s5_first ++ s5_second)).stats.errors = 2 ∧
    (run_bytes device_lut initial_device (s5_first ++ s5_second)).stats.flushes = 0 ∧
    ((run_bytes device_lut initial_device (s5_first ++ s5_second)).channels 0).active_buffer 0 = 0 ∧
    (run_bytes device_lut initial_device s5_first).parserCtx.state ≠ ParserState.waitCommand :=
  ⟨rfl, rfl, rfl, fun h => nomatch h⟩

/-- Claim C2, amended: the invalid-channel byte drops the command and
increments the error counter by exactly 1, but the aborted command's
remaining payload is reinterpreted as input — `01 00` are consumed (and
ignored) as commands and `FF 00 00` starts a new update header, leaving the
parser in `READ_COUNT_HIGH`; the subsequent `FF 00 01 00 10 20 30` is
therefore not parsed as a valid Update+Flush: its first byte is consumed as
a count-high byte, producing invalid count `0xFF00` (error counter reaches
2), the remaining bytes are ignored in `WAIT_COMMAND`, and channel 0 LED 0
is neither written nor flushed. -/
theorem parser_recovery_amended :
    (run_bytes device_lut initial_device s5_first).stats.errors = 1 ∧
    (run_bytes device_lut initial_device s5_first).parserCtx.state = ParserState.readCountHigh ∧
    (run_bytes device_lut initial_device (s5_first ++ s5_second)).stats.errors = 2 ∧
    (run_bytes device_lut initial_device (s5_first ++ s5_second)).parserCtx.state = ParserState.waitCommand ∧
    (∀ j, ((run_bytes device_lut initial_device (s5_first ++ s5_second)).channels 0).active_buffer j = 0) ∧
    (∀ j, ((run_bytes device_lut initial_device (s5_first ++ s5_second)).channels 0).output_buffer j = 0) ∧
    (run_bytes device_lut initial_device (s5_first ++ s5_second)).stats.flushes = 0 :=
  ⟨rfl, rfl, rfl, rfl, fun _ => rfl, fun _ => rfl, rfl⟩

/-- Net effect of the `CMD_CLEAR_ALL` loop body on an arbitrary device
state. -/
theorem clear_all_effect (s : DeviceState) :
    (clear_all s).system_mode = SystemMode.normal ∧
    (∀ ch < 8, ((clear_all s).channels ch).led_count = 200 ∧
      ∀ i, ((clear_all s).channels ch).output_buffer i = 0) ∧
    (clear_all s).stats.flushes = s.stats.flushes + 8 := by
  have hr : List.range NUM_CHANNELS = [0, 1, 2, 3, 4, 5, 6, 7] := rfl
  refine ⟨?_, ?_, ?_⟩
  · simp [clear_all, hr, device_channel_update, setChannel, MAX_LEDS_PER_CHANNEL]
  · intro ch hch
    interval_cases ch <;>
      simp [clear_all, hr, device_channel_update, setChannel, MAX_LEDS_PER_CHANNEL]
  · simp [clear_all, hr, device_channel_update, setChannel, MAX_LEDS_PER_CHANNEL]

/-- Claim C10: receiving `0xF9` in `WAIT_COMMAND` always returns the device
to normal mode, sets every channel's `led_count` to the maximum 200 before
zeroing its active buffer and flushing it, so afterwards every channel
drives 200 black LEDs (output buffer all zero, one flush per channel)
regardless of the previously declared `led_count`. -/
theorem cmd_clear_all_spec (lut : ℕ → ℕ) (s : DeviceState)
    (hwait : s.parserCtx.state = ParserState.waitCommand) :
    (parse_byte lut s CMD_CLEAR_ALL).system_mode = SystemMode.normal ∧
    (∀ ch < 8, ((parse_byte lut s CMD_CLEAR_ALL).channels ch).led_count = 200 ∧
      ∀ i, ((parse_byte lut s CMD_CLEAR_ALL).channels ch).output_buffer i = 0) ∧
    (parse_byte lut s CMD_CLEAR_ALL).stats.flushes = s.stats.flushes + 8 := by
  have hstep : parse_byte lut s CMD_CLEAR_ALL = clear_all { s with
      parserCtx := { s.parserCtx with current_command := CMD_CLEAR_ALL }
      stats := { s.stats with commands := s.stats.commands + 1 } } := by
    simp [parse_byte, hwait, CMD_CLEAR_ALL, CMD_UPDATE_AND_FLUSH, CMD_UPDATE_ONLY,
      CMD_FLUSH, CMD_RESET, CMD_START_PATTERN, CMD_STOP_PATTERN]
  rw [hstep]
  have h := clear_all_effect { s with
      parserCtx := { s.parserCtx with current_command := CMD_CLEAR_ALL }
      stats := { s.stats with commands := s.stats.commands + 1 } }
  exact ⟨h.1, h.2.1, h.2.2⟩

/-- Witness for C10: a device sitting in test-pattern mode is returned to
normal mode by `0xF9`, with channel 3 reset to 200 zeroed LEDs and 8
flushes counted. -/
theorem cmd_clear_all_spec_witness :
    pattern_device.parserCtx.state = ParserState.waitCommand ∧
    pattern_device.system_mode = SystemMode.testPattern ∧
    (parse_byte (fun n => n) pattern_device CMD_CLEAR_ALL).system_mode = SystemMode.normal ∧
    ((parse_byte (fun n => n) pattern_device CMD_CLEAR_ALL).channels 3).led_count = 200 ∧
    (parse_byte (fun n => n) pattern_device CMD_CLEAR_ALL).stats.flushes =
      pattern_device.stats.flushes + 8 :=
  ⟨rfl, rfl, (cmd_clear_all_spec (fun n => n) pattern_device rfl).1,
   ((cmd_clear_all_spec (fun n => n) pattern_device rfl).2.1 3 (by norm_num)).1,
   (cmd_clear_all_spec (fun n => n) pattern_device rfl).2.2⟩


/-- One complete `R G B` triple in `READ_RGB_DATA` (not the last of the
command): the pixel is gamma-packed into the active buffer at the current
index and the LED index advances. -/
theorem parse_triple (lut : ℕ → ℕ) (s : DeviceState) (r g b : ℕ)
    (hstate : s.parserCtx.state = ParserState.readRgbData)
    (hidx : s.parserCtx.rgb_byte_index = 0)
    (hnc : s.parserCtx.current_led_index + 1 < s.parserCtx.current_led_count) :
    run_bytes lut s [r, g, b] = { s with
      parserCtx := { s.parserCtx with
        current_r := r
        current_g := g
        current_b := b
        current_led_index := s.parserCtx.current_led_index + 1
        rgb_byte_index := 0 }
      channels := setChannel s.channels s.parserCtx.current_channel
        { s.channels s.parserCtx.current_channel with
          active_buffer := fun j =>
            if j = s.parserCtx.current_led_index then rgb_to_grb lut r g b
            else (s.channels s.parserCtx.current_channel).active_buffer j }
      stats := { s.stats with pixels := s.stats.pixels + 1 } } := by
  simp [run_bytes, parse_byte, hstate, hidx, setChannel, Nat.not_le.mpr hnc]

/-- Running an incomplete RGB payload (strictly fewer triples than
declared) from `READ_RGB_DATA`: the parser stays in `READ_RGB_DATA`, no
flush happens, the channel registers are unchanged, and exactly the
received leading pixels are stored in the active buffer. -/
theorem run_rgb_partial (lut : ℕ → ℕ) (s : DeviceState)
    (triples : List (ℕ × ℕ × ℕ))
    (hstate : s.parserCtx.state = ParserState.readRgbData)
    (hidx : s.parserCtx.rgb_byte_index = 0)
    (hlt : s.parserCtx.current_led_index + triples.length <
      s.parserCtx.current_led_count) :
    (run_bytes lut s (rgb_payload triples)).parserCtx.state = ParserState.readRgbData ∧
    (run_bytes lut s (rgb_payload triples)).parserCtx.rgb_byte_index = 0 ∧
    (run_bytes lut s (rgb_payload triples)).parserCtx.current_led_index =
      s.parserCtx.current_led_index + triples.length ∧
    (run_bytes lut s (rgb_payload triples)).parserCtx.current_led_count =
      s.parserCtx.current_led_count ∧
    (run_bytes lut s (rgb_payload triples)).parserCtx.current_channel =
      s.parserCtx.current_channel ∧
    (run_bytes lut s (rgb_payload triples)).stats.flushes = s.stats.flushes ∧
    ((run_bytes lut s (rgb_payload triples)).channels s.parserCtx.current_channel).led_count =
      (s.channels s.parserCtx.current_channel).led_count ∧
    ((run_bytes lut s (rgb_payload triples)).channels s.parserCtx.current_channel).output_buffer =
      (s.channels s.parserCtx.current_channel).output_buffer ∧
    (∀ k, ((run_bytes lut s (rgb_payload triples)).channels s.parserCtx.current_channel).active_buffer k =
      if s.parserCtx.current_led_index ≤ k ∧
          k < s.parserCtx.current_led_index + triples.length
      then rgb_to_grb lut (triples.getD (k - s.parserCtx.current_led_index) (0, 0, 0)).1
             (triples.getD (k - s.parserCtx.current_led_index) (0, 0, 0)).2.1
             (triples.getD (k - s.parserCtx.current_led_index) (0, 0, 0)).2.2
      else (s.channels s.parserCtx.current_channel).active_buffer k) := by
  induction triples generalizing s with
  | nil =>
    refine ⟨hstate, hidx, rfl, rfl, rfl, rfl, rfl, rfl, ?_⟩
    intro k
    have hcond : ¬(s.parserCtx.current_led_index ≤ k ∧
        k < s.parserCtx.current_led_index + ([] : List (ℕ × ℕ × ℕ)).length) := by
      rintro ⟨hk1, hk2⟩
      simp only [List.length_nil, Nat.add_zero] at hk2
      omega
    rw [if_neg hcond]
    rfl
  | cons tr rest ih =>
    have hpay : rgb_payload (tr :: rest) = [tr.1, tr.2.1, tr.2.2] ++ rgb_payload rest := by
      simp [rgb_payload]
    have happ : run_bytes lut s (rgb_payload (tr :: rest)) =
        run_bytes lut (run_bytes lut s [tr.1, tr.2.1, tr.2.2]) (rgb_payload rest) := by
      rw [hpay]
      simp [run_bytes]
    have hnc : s.parserCtx.current_led_index + 1 < s.parserCtx.current_led_count := by
      simp only [List.length_cons] at hlt
      omega
    have hstep := parse_triple lut s tr.1 tr.2.1 tr.2.2 hstate hidx hnc
    rw [happ, hstep]
    have ihres := ih { s with
      parserCtx := { s.parserCtx with
        current_r := tr.1
        current_g := tr.2.1
        current_b := tr.2.2
        current_led_index := s.parserCtx.current_led_index + 1
        rgb_byte_index := 0 }
      channels := setChannel s.channels s.parserCtx.current_channel
        { s.channels s.parserCtx.current_channel with
          active_buffer := fun j =>
            if j = s.parserCtx.current_led_index then rgb_to_grb lut tr.1 tr.2.1 tr.2.2
            else (s.channels s.parserCtx.current_channel).active_buffer j }
      stats := { s.stats with pixels := s.stats.pixels + 1 } }
      hstate rfl
      (by
        show s.parserCtx.current_led_index + 1 + rest.length <
          s.parserCtx.current_led_count
        simp only [List.length_cons] at hlt
        omega)
    simp only [setChannel, eq_self_iff_true, if_true] at ihres
    obtain ⟨i1, i2, i3, i4, i5, i6, i7, i8, i9⟩ := ihres
    refine ⟨i1, i2, ?_, i4, i5, i6, ?_, ?_, ?_⟩
    · rw [i3]
      simp only [List.length_cons]
      omega
    · rw [i7]
    · rw [i8]
    · intro k
      rw [i9 k]
      simp only [List.length_cons]
      by_cases hk1 : k = s.parserCtx.current_led_index
      · subst hk1
        have h1 : ¬(s.parserCtx.current_led_index + 1 ≤ s.parserCtx.current_led_index ∧
            s.parserCtx.current_led_index < s.parserCtx.current_led_index + 1 + rest.length) := by
          omega
        have h2 : s.parserCtx.current_led_index ≤ s.parserCtx.current_led_index ∧
            s.parserCtx.current_led_index < s.parserCtx.current_led_index + (rest.length + 1) := by
          omega
        rw [if_neg h1, if_pos h2, if_pos rfl]
        simp [Nat.sub_self]
      · by_cases hk2 : s.parserCtx.current_led_index + 1 ≤ k ∧
            k < s.parserCtx.current_led_index + 1 + rest.length
        · have h2 : s.parserCtx.current_led_index ≤ k ∧
              k < s.parserCtx.current_led_index + (rest.length + 1) := by omega
          rw [if_pos hk2, if_pos h2]
          have hsub : k - s.parserCtx.current_led_index =
              (k - (s.parserCtx.current_led_index + 1)) + 1 := by omega
          rw [hsub]
          simp [List.getD_cons_succ]
        · have h2 : ¬(s.parserCtx.current_led_index ≤ k ∧
              k < s.parserCtx.current_led_index + (rest.length + 1)) := by omega
          rw [if_neg hk2, if_neg h2, if_neg hk1]


/-- A valid update header (`0xFE`/`0xFF`, channel `< 8`, count in
`[1, 200]`) processed from `WAIT_COMMAND`: the channel `led_count` is set
already here, the mode returns to normal, and the parser awaits RGB data. -/
theorem run_header (lut : ℕ → ℕ) (s : DeviceState) (cmd ch lo hi : ℕ)
    (hwait : s.parserCtx.state = ParserState.waitCommand)
    (hcmd : cmd = CMD_UPDATE_ONLY ∨ cmd = CMD_UPDATE_AND_FLUSH)
    (hch : ch < NUM_CHANNELS)
    (hcnt1 : 0 < lo + hi * 256) (hcnt2 : lo + hi * 256 ≤ MAX_LEDS_PER_CHANNEL) :
    run_bytes lut s [cmd, ch, lo, hi] = { s with
      parserCtx := { s.parserCtx with
        state := ParserState.readRgbData
        current_command := cmd
        current_channel := ch
        current_led_count := lo + hi * 256
        current_led_index := 0
        rgb_byte_index := 0
        auto_flush := decide (cmd = CMD_UPDATE_AND_FLUSH) }
      channels := setChannel s.channels ch
        { s.channels ch with led_count := lo + hi * 256 }
      stats := { s.stats with commands := s.stats.commands + 1 }
      system_mode := SystemMode.normal } := by
  rcases hcmd with hcmd | hcmd <;> subst hcmd <;>
    simp [run_bytes, parse_byte, hwait, hch, hcnt1, hcnt2,
      CMD_UPDATE_ONLY, CMD_UPDATE_AND_FLUSH]

/-- Claim C9: when the device parser accepts a valid update header
(command `0xFF` or `0xFE`, channel `< 8`, `1 ≤ cnt ≤ 200`), it sets that
channel's `led_count` to `cnt` upon the count-high byte — before any RGB
payload byte, with the active buffer still untouched — and an update whose
payload is never completed (fewer than `cnt` triples) still leaves the
channel's `led_count` changed and the received leading pixels stored in
the active buffer, with no flush. -/
theorem header_sets_led_count_before_payload
    (lut : ℕ → ℕ) (s : DeviceState) (cmd ch lo hi : ℕ)
    (triples : List (ℕ × ℕ × ℕ))
    (hwait : s.parserCtx.state = ParserState.waitCommand)
    (hcmd : cmd = CMD_UPDATE_ONLY ∨ cmd = CMD_UPDATE_AND_FLUSH)
    (hch : ch < NUM_CHANNELS)
    (hcnt1 : 0 < lo + hi * 256) (hcnt2 : lo + hi * 256 ≤ MAX_LEDS_PER_CHANNEL)
    (hincomplete : triples.length < lo + hi * 256) :
    ((run_bytes lut s [cmd, ch, lo, hi]).channels ch).led_count = lo + hi * 256 ∧
    (run_bytes lut s [cmd, ch, lo, hi]).parserCtx.state = ParserState.readRgbData ∧
    ((run_bytes lut s [cmd, ch, lo, hi]).channels ch).active_buffer =
      (s.channels ch).active_buffer ∧
    ((run_bytes lut s ([cmd, ch, lo, hi] ++ rgb_payload triples)).channels ch).led_count =
      lo + hi * 256 ∧
    (run_bytes lut s ([cmd, ch, lo, hi] ++ rgb_payload triples)).parserCtx.state =
      ParserState.readRgbData ∧
    (∀ k < triples.length,
      ((run_bytes lut s ([cmd, ch, lo, hi] ++ rgb_payload triples)).channels ch).active_buffer k =
        rgb_to_grb lut (triples.getD k (0, 0, 0)).1 (triples.getD k (0, 0, 0)).2.1
          (triples.getD k (0, 0, 0)).2.2) ∧
    (run_bytes lut s ([cmd, ch, lo, hi] ++ rgb_payload triples)).stats.flushes =
      s.stats.flushes := by
  have hhead := run_header lut s cmd ch lo hi hwait hcmd hch hcnt1 hcnt2
  have happ : run_bytes lut s ([cmd, ch, lo, hi] ++ rgb_payload triples) =
      run_bytes lut (run_bytes lut s [cmd, ch, lo, hi]) (rgb_payload triples) := by
    simp [run_bytes]
  have hpart := run_rgb_partial lut { s with
      parserCtx := { s.parserCtx with
        state := ParserState.readRgbData
        current_command := cmd
        current_channel := ch
        current_led_count := lo + hi * 256
        current_led_index := 0
        rgb_byte_index := 0
        auto_flush := decide (cmd = CMD_UPDATE_AND_FLUSH) }
      channels := setChannel s.channels ch
        { s.channels ch with led_count := lo + hi * 256 }
      stats := { s.stats with commands := s.stats.commands + 1 }
      system_mode := SystemMode.normal } triples rfl rfl
    (by
      show 0 + triples.length < lo + hi * 256
      omega)
  simp only [setChannel, eq_self_iff_true, if_true] at hpart
  obtain ⟨p1, p2, p3, p4, p5, p6, p7, p8, p9⟩ := hpart
  refine ⟨?_, ?_, ?_, ?_, ?_, ?_, ?_⟩
  · rw [hhead]
    simp [setChannel]
  · rw [hhead]
  · rw [hhead]
    simp [setChannel]
  · rw [happ, hhead]
    exact p7
  · rw [happ, hhead]
    exact p1
  · intro k hk
    rw [happ, hhead, p9 k, if_pos (by omega)]
    simp
  · rw [happ, hhead]
    exact p6


/-- Witness for C9: header `FE 00 02 00` on the booted device sets channel
0's `led_count` to 2 before any payload; one triple `(10, 20, 30)` of the
2-LED payload stores pixel 0 and the command stays incomplete. -/
theorem header_sets_led_count_witness :
    initial_device.parserCtx.state = ParserState.waitCommand ∧
    ((0xFE : ℕ) = CMD_UPDATE_ONLY ∨ (0xFE : ℕ) = CMD_UPDATE_AND_FLUSH) ∧
    (0 : ℕ) < NUM_CHANNELS ∧ (0 : ℕ) < 2 + 0 * 256 ∧
    2 + 0 * 256 ≤ MAX_LEDS_PER_CHANNEL ∧
    [((10 : ℕ), (20 : ℕ), (30 : ℕ))].length < 2 + 0 * 256 ∧
    ((run_bytes (fun n => n) initial_device [0xFE, 0, 2, 0]).channels 0).led_count =
      2 + 0 * 256 ∧
    ((run_bytes (fun n => n) initial_device
        ([0xFE, 0, 2, 0] ++ rgb_payload [(10, 20, 30)])).channels 0).active_buffer 0 =
      rgb_to_grb (fun n => n) ([((10 : ℕ), (20 : ℕ), (30 : ℕ))].getD 0 (0, 0, 0)).1
        ([((10 : ℕ), (20 : ℕ), (30 : ℕ))].getD 0 (0, 0, 0)).2.1
        ([((10 : ℕ), (20 : ℕ), (30 : ℕ))].getD 0 (0, 0, 0)).2.2 :=
  ⟨rfl, Or.inl rfl, by decide, by decide, by decide, by decide,
   (header_sets_led_count_before_payload (fun n => n) initial_device 0xFE 0 2 0
      [(10, 20, 30)] rfl (Or.inl rfl) (by decide) (by decide) (by decide) (by decide)).1,
   (header_sets_led_count_before_payload (fun n => n) initial_device 0xFE 0 2 0
      [(10, 20, 30)] rfl (Or.inl rfl) (by decide) (by decide) (by decide)
      (by decide)).2.2.2.2.2.1 0 (by decide)⟩

end EmergentOrder
